import Mathlib

/-!
Shallow embedding of the chunk-type registry module
(src/dask/array/chunk_types.py).

The Python module keeps a process-wide list of registered chunk types,
seeded with the NumPy dense and masked array classes, extended by guarded
probing of optional backends and by register_chunk_type, and queried by two
predicates: is_valid_chunk_type (on type objects) and is_valid_array_chunk
(on values).

Modelling choices:
- A Python class object is a PyClass: an identity plus the identities of its
  ancestor classes.  Subclass testing follows the method resolution order:
  a class is a subclass of another exactly when the latter identity occurs
  in the former's mro.  Every class is a subclass of itself because its own
  identity heads its mro.
- A Python value is a PyVal: the None sentinel, an int, a str, a list
  object, a class object, or an instance of a class.  Every value has a
  runtime class (classOf).
- Fallible builtins return Except PyErr Bool.  Both "issubclass" and
  "isinstance" with a tuple argument iterate the tuple lazily from the
  left and raise TypeError at the first non-class entry, exactly as
  CPython does; "issubclass" additionally raises TypeError when its first
  argument is not a class.  Python equality on these values is structural
  decidable equality (classes compare by identity).
-/

set_option maxHeartbeats 1000000

/-- A Python class object: its identity and the identities of its strict
ancestors, in method resolution order. -/
structure PyClass where
  id : Nat
  parents : List Nat
deriving DecidableEq, Repr

/-- The method resolution order of a class: itself, then its ancestors. -/
def mro (c : PyClass) : List Nat :=
  c.id :: c.parents

/-- Python issubclass on two class objects: the second class occurs in the
first one's method resolution order. -/
def issubclassB (c d : PyClass) : Bool :=
  decide (d.id ∈ mro c)

/-- A Python value as seen by this module: the None sentinel, an int, a
str, a list object, a class object, or an instance of a class. -/
inductive PyVal where
  | vnone : PyVal
  | vint : Int → PyVal
  | vstr : String → PyVal
  | vlist : Nat → PyVal
  | vcls : PyClass → PyVal
  | inst : PyClass → Nat → PyVal
deriving DecidableEq, Repr

/-- The root class "object". -/
def objectClass : PyClass := ⟨0, []⟩

/-- np.ndarray. -/
def ndarrayClass : PyClass := ⟨1, [0]⟩

/-- np.ma.MaskedArray, a subclass of np.ndarray. -/
def maskedArrayClass : PyClass := ⟨2, [1, 0]⟩

/-- cupy.ndarray (optional backend). -/
def cupyNdarrayClass : PyClass := ⟨3, [0]⟩

/-- cupyx.scipy.sparse.spmatrix (optional backend). -/
def cupyxSpmatrixClass : PyClass := ⟨4, [0]⟩

/-- sparse.SparseArray (optional backend). -/
def sparseArrayClass : PyClass := ⟨5, [0]⟩

/-- scipy.sparse.spmatrix (optional backend). -/
def scipySpmatrixClass : PyClass := ⟨6, [0]⟩

/-- The metaclass "type": the runtime class of every class object. -/
def typeClass : PyClass := ⟨7, [0]⟩

/-- NoneType. -/
def noneClass : PyClass := ⟨8, [0]⟩

/-- int. -/
def intClass : PyClass := ⟨9, [0]⟩

/-- str. -/
def strClass : PyClass := ⟨10, [0]⟩

/-- list. -/
def listClass : PyClass := ⟨11, [0]⟩

/-- The runtime class of a value. -/
def classOf : PyVal → PyClass
  | PyVal.vnone => noneClass
  | PyVal.vint _ => intClass
  | PyVal.vstr _ => strClass
  | PyVal.vlist _ => listClass
  | PyVal.vcls _ => typeClass
  | PyVal.inst c _ => c

/-- Whether a value is a class object. -/
def isClass : PyVal → Bool
  | PyVal.vcls _ => true
  | _ => false

/-- The exceptions this module's code can raise. -/
inductive PyErr where
  | typeError : PyErr
deriving DecidableEq, Repr

/-- Whether one tuple entry makes the lazy subclass scan for class k
succeed: the entry is a class object that k is a subclass of. -/
def hits (k : PyClass) : PyVal → Bool
  | PyVal.vcls d => issubclassB k d
  | _ => false

/-- The lazy left-to-right scan CPython performs when issubclass or
isinstance receives a tuple: succeed at the first entry whose class the
candidate class k is a subclass of, raise TypeError at the first non-class
entry reached before any success. -/
def checkTuple (k : PyClass) : List PyVal → Except PyErr Bool
  | [] => Except.ok false
  | PyVal.vcls d :: rest =>
      if issubclassB k d then Except.ok true else checkTuple k rest
  | _ :: _ => Except.error PyErr.typeError

/-- Python issubclass(v, tuple(ts)): TypeError when v is not a class,
otherwise the lazy scan of ts with v's class. -/
def issubclassTuple (v : PyVal) (ts : List PyVal) : Except PyErr Bool :=
  match v with
  | PyVal.vcls c => checkTuple c ts
  | _ => Except.error PyErr.typeError

/-- Python isinstance(v, tuple(ts)): the lazy scan of ts with v's runtime
class. -/
def isinstanceTuple (v : PyVal) (ts : List PyVal) : Except PyErr Bool :=
  checkTuple (classOf v) ts

/-- The initial registry: [np.ndarray, np.ma.MaskedArray]. -/
def _HANDLED_CHUNK_TYPES : List PyVal :=
  [PyVal.vcls ndarrayClass, PyVal.vcls maskedArrayClass]

/-- register_chunk_type: _HANDLED_CHUNK_TYPES.append(type).  The registry
is passed and returned explicitly; appending never fails. -/
def register_chunk_type (t : PyVal) (reg : List PyVal) : List PyVal :=
  reg ++ [t]

/-- n repeated registrations of the same value. -/
def registerN (t : PyVal) : Nat → List PyVal → List PyVal
  | 0, reg => reg
  | Nat.succ n, reg => registerN t n (register_chunk_type t reg)

/-- The body of the try block of is_valid_chunk_type:
"type in _HANDLED_CHUNK_TYPES or issubclass(type, tuple(_HANDLED_CHUNK_TYPES))".
The or is short-circuiting, so membership is decided before the fallible
subclass test runs. -/
def chunkTypeBody (v : PyVal) (reg : List PyVal) : Except PyErr Bool :=
  if v ∈ reg then Except.ok true else issubclassTuple v reg

/-- The except TypeError clause: a raised TypeError becomes false. -/
def catchTypeError : Except PyErr Bool → Bool
  | Except.ok b => b
  | Except.error _ => false

/-- is_valid_chunk_type: the try body with TypeError converted to false. -/
def is_valid_chunk_type (v : PyVal) (reg : List PyVal) : Bool :=
  catchTypeError (chunkTypeBody v reg)

/-- is_valid_array_chunk:
"array is None or isinstance(array, tuple(_HANDLED_CHUNK_TYPES))".
There is no except clause here, so a TypeError from isinstance propagates
to the caller. -/
def is_valid_array_chunk (v : PyVal) (reg : List PyVal) : Except PyErr Bool :=
  if v = PyVal.vnone then Except.ok true else isinstanceTuple v reg

/-- Which optional backends import successfully in a given process. -/
structure Backends where
  cupy : Bool
  cupyxSparse : Bool
  sparse : Bool
  scipySparse : Bool
deriving DecidableEq, Repr

/-- One guarded import block: when the import succeeds the backend type is
registered, when it raises ImportError the registry is left untouched. -/
def probeBackend (avail : Bool) (t : PyVal) (reg : List PyVal) : List PyVal :=
  if avail then register_chunk_type t reg else reg

/-- The registry after module initialization: the default entries followed
by the four guarded import blocks, in source order. -/
def initRegistry (b : Backends) : List PyVal :=
  probeBackend b.scipySparse (PyVal.vcls scipySpmatrixClass)
    (probeBackend b.sparse (PyVal.vcls sparseArrayClass)
      (probeBackend b.cupyxSparse (PyVal.vcls cupyxSpmatrixClass)
        (probeBackend b.cupy (PyVal.vcls cupyNdarrayClass) _HANDLED_CHUNK_TYPES)))

/-- Registry states reachable in a process with backend availability b:
the initialized registry, extended by any sequence of registrations. -/
inductive Reachable (b : Backends) : List PyVal → Prop where
  | init : Reachable b (initRegistry b)
  | step (t : PyVal) (reg : List PyVal) :
      Reachable b reg → Reachable b (register_chunk_type t reg)

theorem checkTuple_ok (k : PyClass) (reg : List PyVal)
    (hreg : ∀ t ∈ reg, isClass t = true) :
    checkTuple k reg = Except.ok (reg.any (hits k)) := by
  induction reg with
  | nil => rfl
  | cons t rest ih =>
    have hrest : ∀ u ∈ rest, isClass u = true :=
      fun u hu => hreg u (List.mem_cons_of_mem t hu)
    cases t with
    | vcls d =>
      cases hkd : issubclassB k d with
      | true => simp [checkTuple, List.any_cons, hits, hkd]
      | false => simp [checkTuple, List.any_cons, hits, hkd, ih hrest]
    | vnone => exact absurd (hreg _ (List.mem_cons_self _ _)) (by simp [isClass])
    | vint n => exact absurd (hreg _ (List.mem_cons_self _ _)) (by simp [isClass])
    | vstr s => exact absurd (hreg _ (List.mem_cons_self _ _)) (by simp [isClass])
    | vlist i => exact absurd (hreg _ (List.mem_cons_self _ _)) (by simp [isClass])
    | inst c i => exact absurd (hreg _ (List.mem_cons_self _ _)) (by simp [isClass])

theorem any_hits_iff (k : PyClass) (reg : List PyVal) :
    reg.any (hits k) = true ↔
      ∃ c : PyClass, PyVal.vcls c ∈ reg ∧ issubclassB k c = true := by
  rw [List.any_eq_true]
  constructor
  · rintro ⟨t, ht, hh⟩
    cases t with
    | vcls d => exact ⟨d, ht, hh⟩
    | vnone => simp [hits] at hh
    | vint n => simp [hits] at hh
    | vstr s => simp [hits] at hh
    | vlist i => simp [hits] at hh
    | inst c i => simp [hits] at hh
  · rintro ⟨c, hc, hsub⟩
    exact ⟨PyVal.vcls c, hc, hsub⟩

theorem is_valid_chunk_type_of_mem (v : PyVal) (reg : List PyVal)
    (h : v ∈ reg) : is_valid_chunk_type v reg = true := by
  simp [is_valid_chunk_type, chunkTypeBody, if_pos h, catchTypeError]

theorem mem_registerN (t : PyVal) (n : Nat) (reg : List PyVal) (h : t ∈ reg) :
    t ∈ registerN t n reg := by
  induction n generalizing reg with
  | zero => exact h
  | succ n ih => exact ih _ (List.mem_append_left _ h)

theorem mem_registerN_succ (t : PyVal) (n : Nat) (reg : List PyVal) :
    t ∈ registerN t (n + 1) reg := by
  have h0 : t ∈ register_chunk_type t reg := by simp [register_chunk_type]
  exact mem_registerN t n _ h0

theorem initRegistry_eq (b : Backends) :
    initRegistry b =
      _HANDLED_CHUNK_TYPES
        ++ (if b.cupy then [PyVal.vcls cupyNdarrayClass] else [])
        ++ (if b.cupyxSparse then [PyVal.vcls cupyxSpmatrixClass] else [])
        ++ (if b.sparse then [PyVal.vcls sparseArrayClass] else [])
        ++ (if b.scipySparse then [PyVal.vcls scipySpmatrixClass] else []) := by
  obtain ⟨c1, c2, c3, c4⟩ := b
  cases c1 <;> cases c2 <;> cases c3 <;> cases c4 <;> rfl

/-- C1: with every registry entry a class object, is_valid_array_chunk
returns ok true exactly when the value is the None sentinel or its runtime
class is a registered class or a subclass of one, and on every other value
it returns ok false. -/
theorem C1_is_valid_array_chunk_iff (v : PyVal) (reg : List PyVal)
    (hreg : ∀ t ∈ reg, isClass t = true) :
    (is_valid_array_chunk v reg = Except.ok true ↔
      v = PyVal.vnone ∨
        ∃ c : PyClass, PyVal.vcls c ∈ reg ∧ issubclassB (classOf v) c = true) ∧
    (is_valid_array_chunk v reg = Except.ok true ∨
      is_valid_array_chunk v reg = Except.ok false) := by
  by_cases hv : v = PyVal.vnone
  · subst hv
    simp [is_valid_array_chunk]
  · have hchk := checkTuple_ok (classOf v) reg hreg
    constructor
    · simp only [is_valid_array_chunk, isinstanceTuple]
      rw [if_neg hv, hchk]
      simp only [Except.ok.injEq]
      rw [any_hits_iff]
      exact (or_iff_right hv).symm
    · simp only [is_valid_array_chunk, isinstanceTuple]
      rw [if_neg hv, hchk]
      cases reg.any (hits (classOf v))
      · right; rfl
      · left; rfl

theorem C1_witness :
    (∀ t ∈ _HANDLED_CHUNK_TYPES, isClass t = true) ∧
    ((is_valid_array_chunk (PyVal.inst maskedArrayClass 0) _HANDLED_CHUNK_TYPES =
        Except.ok true ↔
      PyVal.inst maskedArrayClass 0 = PyVal.vnone ∨
        ∃ c : PyClass, PyVal.vcls c ∈ _HANDLED_CHUNK_TYPES ∧
          issubclassB (classOf (PyVal.inst maskedArrayClass 0)) c = true) ∧
    (is_valid_array_chunk (PyVal.inst maskedArrayClass 0) _HANDLED_CHUNK_TYPES =
        Except.ok true ∨
      is_valid_array_chunk (PyVal.inst maskedArrayClass 0) _HANDLED_CHUNK_TYPES =
        Except.ok false)) :=
  ⟨by decide, C1_is_valid_array_chunk_iff _ _ (by decide)⟩

/-- C2: once a class T has been registered, any subclass S of T passes
is_valid_chunk_type even when S itself was never registered, for every
registry made of class objects. -/
theorem C2_subtype_closure (S T : PyClass) (hsub : issubclassB S T = true)
    (reg : List PyVal) (hreg : ∀ t ∈ reg, isClass t = true) :
    is_valid_chunk_type (PyVal.vcls S) (register_chunk_type (PyVal.vcls T) reg) = true := by
  have hreg2 : ∀ t ∈ register_chunk_type (PyVal.vcls T) reg, isClass t = true := by
    intro t ht
    rcases List.mem_append.mp ht with h | h
    · exact hreg t h
    · rw [List.mem_singleton] at h; subst h; rfl
  by_cases hm : PyVal.vcls S ∈ register_chunk_type (PyVal.vcls T) reg
  · exact is_valid_chunk_type_of_mem _ _ hm
  · have hany : (register_chunk_type (PyVal.vcls T) reg).any (hits S) = true := by
      apply (any_hits_iff S _).mpr
      exact ⟨T, List.mem_append_right _ (List.mem_singleton.mpr rfl), hsub⟩
    have hbody : chunkTypeBody (PyVal.vcls S) (register_chunk_type (PyVal.vcls T) reg) =
        Except.ok true := by
      rw [chunkTypeBody, if_neg hm]
      show checkTuple S _ = _
      rw [checkTuple_ok S _ hreg2, hany]
    simp [is_valid_chunk_type, hbody, catchTypeError]

theorem C2_witness :
    issubclassB maskedArrayClass ndarrayClass = true ∧
    is_valid_chunk_type (PyVal.vcls maskedArrayClass)
      (register_chunk_type (PyVal.vcls ndarrayClass) []) = true :=
  ⟨by decide, C2_subtype_closure maskedArrayClass ndarrayClass (by decide) []
    (by intro t ht; cases ht)⟩

/-- C3: on a non-class input and a registry whose entries are all classes,
is_valid_chunk_type returns false, and it does so by catching the
TypeError its try body raises rather than propagating it. -/
theorem C3_non_type_input (v : PyVal) (reg : List PyVal)
    (hv : isClass v = false) (hreg : ∀ t ∈ reg, isClass t = true) :
    is_valid_chunk_type v reg = false ∧
    chunkTypeBody v reg = Except.error PyErr.typeError := by
  have hmem : v ∉ reg := by
    intro h
    have hc := hreg v h
    rw [hv] at hc
    exact absurd hc (by decide)
  have hsub : issubclassTuple v reg = Except.error PyErr.typeError := by
    cases v with
    | vcls c => simp [isClass] at hv
    | vnone => rfl
    | vint n => rfl
    | vstr s => rfl
    | vlist i => rfl
    | inst c i => rfl
  have hbody : chunkTypeBody v reg = Except.error PyErr.typeError := by
    rw [chunkTypeBody, if_neg hmem]; exact hsub
  exact ⟨by simp [is_valid_chunk_type, hbody, catchTypeError], hbody⟩

theorem C3_witness :
    isClass (PyVal.vint 5) = false ∧
    (∀ t ∈ _HANDLED_CHUNK_TYPES, isClass t = true) ∧
    (is_valid_chunk_type (PyVal.vint 5) _HANDLED_CHUNK_TYPES = false ∧
      chunkTypeBody (PyVal.vint 5) _HANDLED_CHUNK_TYPES =
        Except.error PyErr.typeError) :=
  ⟨by decide, by decide, C3_non_type_input _ _ (by decide) (by decide)⟩

/-- C4 counterexample: the claim that neither predicate ever raises, even
for registries holding non-type entries, is false: after registering the
non-class value 42, is_valid_array_chunk on a non-None value propagates
the TypeError raised by the instance check. -/
theorem C4_counterexample :
    is_valid_array_chunk (PyVal.vint 0)
      (register_chunk_type (PyVal.vint 42) _HANDLED_CHUNK_TYPES) =
      Except.error PyErr.typeError := by
  rfl

/-- C4 amended: is_valid_chunk_type never raises — every error of its try
body is converted into false — for all inputs and registries; and
is_valid_array_chunk returns an ok boolean whenever every registry entry
is a class object. -/
theorem C4_amended_no_raise (v : PyVal) (reg : List PyVal)
    (hreg : ∀ t ∈ reg, isClass t = true) :
    (∃ b : Bool, is_valid_array_chunk v reg = Except.ok b) ∧
    (∀ (w : PyVal) (reg2 : List PyVal) (e : PyErr),
      chunkTypeBody w reg2 = Except.error e → is_valid_chunk_type w reg2 = false) := by
  constructor
  · by_cases hv : v = PyVal.vnone
    · exact ⟨true, by simp [is_valid_array_chunk, hv]⟩
    · refine ⟨reg.any (hits (classOf v)), ?_⟩
      simp only [is_valid_array_chunk, isinstanceTuple]
      rw [if_neg hv]
      exact checkTuple_ok _ _ hreg
  · intro w reg2 e he
    simp [is_valid_chunk_type, he, catchTypeError]

theorem C4_witness :
    (∀ t ∈ _HANDLED_CHUNK_TYPES, isClass t = true) ∧
    ((∃ b : Bool, is_valid_array_chunk (PyVal.vint 0) _HANDLED_CHUNK_TYPES =
        Except.ok b) ∧
    (∀ (w : PyVal) (reg2 : List PyVal) (e : PyErr),
      chunkTypeBody w reg2 = Except.error e →
        is_valid_chunk_type w reg2 = false)) :=
  ⟨by decide, C4_amended_no_raise (PyVal.vint 0) _HANDLED_CHUNK_TYPES (by decide)⟩

/-- C5: in the initialized registry with no optional backend detected,
is_valid_chunk_type accepts np.ndarray and np.ma.MaskedArray and rejects
the plain list class. -/
theorem C5_default_registry :
    is_valid_chunk_type (PyVal.vcls ndarrayClass)
      (initRegistry ⟨false, false, false, false⟩) = true ∧
    is_valid_chunk_type (PyVal.vcls maskedArrayClass)
      (initRegistry ⟨false, false, false, false⟩) = true ∧
    is_valid_chunk_type (PyVal.vcls listClass)
      (initRegistry ⟨false, false, false, false⟩) = false := by
  decide

/-- C6: is_valid_array_chunk on the None sentinel returns ok true for
every registry whatsoever. -/
theorem C6_sentinel_always_valid (reg : List PyVal) :
    is_valid_array_chunk PyVal.vnone reg = Except.ok true := by
  simp [is_valid_array_chunk]

/-- C7: after one registration of a class, and after any number of further
repeated registrations of it, is_valid_chunk_type on that class returns
true: the duplicate entries have no observable effect. -/
theorem C7_registration_idempotent (c : PyClass) (reg : List PyVal) (n : Nat) :
    is_valid_chunk_type (PyVal.vcls c) (registerN (PyVal.vcls c) (n + 1) reg) = true :=
  is_valid_chunk_type_of_mem _ _ (mem_registerN_succ _ _ _)

/-- C8: each guarded probe contributes its backend type exactly when its
backend loads, independently of the other backends; a failed probe
leaves the registry as if never attempted, and the default entries pass
is_valid_chunk_type in every case. -/
theorem C8_backend_probing_isolated (b : Backends) :
    initRegistry b =
      _HANDLED_CHUNK_TYPES
        ++ (if b.cupy then [PyVal.vcls cupyNdarrayClass] else [])
        ++ (if b.cupyxSparse then [PyVal.vcls cupyxSpmatrixClass] else [])
        ++ (if b.sparse then [PyVal.vcls sparseArrayClass] else [])
        ++ (if b.scipySparse then [PyVal.vcls scipySpmatrixClass] else []) ∧
    is_valid_chunk_type (PyVal.vcls ndarrayClass) (initRegistry b) = true ∧
    is_valid_chunk_type (PyVal.vcls maskedArrayClass) (initRegistry b) = true := by
  obtain ⟨c1, c2, c3, c4⟩ := b
  cases c1 <;> cases c2 <;> cases c3 <;> cases c4 <;> decide

/-- C9: every reachable registry contains the default entries and extends
the default list, and each registration only appends, never removes. -/
theorem C9_registry_monotone (b : Backends) (reg : List PyVal)
    (h : Reachable b reg) :
    (PyVal.vcls ndarrayClass ∈ reg ∧ PyVal.vcls maskedArrayClass ∈ reg) ∧
    (∃ tail : List PyVal, reg = _HANDLED_CHUNK_TYPES ++ tail) ∧
    (∀ t : PyVal, ∃ tail : List PyVal,
      register_chunk_type t reg = reg ++ tail) := by
  induction h with
  | init =>
    refine ⟨?_, ?_, fun t => ⟨[t], rfl⟩⟩
    · rw [initRegistry_eq b]
      constructor <;> simp [_HANDLED_CHUNK_TYPES]
    · refine ⟨(if b.cupy then [PyVal.vcls cupyNdarrayClass] else [])
        ++ ((if b.cupyxSparse then [PyVal.vcls cupyxSpmatrixClass] else [])
        ++ ((if b.sparse then [PyVal.vcls sparseArrayClass] else [])
        ++ (if b.scipySparse then [PyVal.vcls scipySpmatrixClass] else []))), ?_⟩
      rw [initRegistry_eq b]
      simp [List.append_assoc]
  | step t reg hr ih =>
    obtain ⟨⟨h1, h2⟩, ⟨tail, htail⟩, _⟩ := ih
    refine ⟨⟨List.mem_append_left _ h1, List.mem_append_left _ h2⟩,
      ⟨tail ++ [t], ?_⟩, fun u => ⟨[u], rfl⟩⟩
    rw [register_chunk_type, htail, List.append_assoc]

theorem C9_witness :
    (PyVal.vcls ndarrayClass ∈ initRegistry ⟨false, false, false, false⟩ ∧
      PyVal.vcls maskedArrayClass ∈ initRegistry ⟨false, false, false, false⟩) ∧
    (∃ tail : List PyVal,
      initRegistry ⟨false, false, false, false⟩ = _HANDLED_CHUNK_TYPES ++ tail) ∧
    (∀ t : PyVal, ∃ tail : List PyVal,
      register_chunk_type t (initRegistry ⟨false, false, false, false⟩) =
        initRegistry ⟨false, false, false, false⟩ ++ tail) :=
  C9_registry_monotone ⟨false, false, false, false⟩ _ Reachable.init

/-- C10: after any value, class or not, has been registered, exact
membership in the registry makes is_valid_chunk_type return true, and the
try body returns ok true without the subclass check raising. -/
theorem C10_registered_value_valid (x : PyVal) (reg : List PyVal) :
    is_valid_chunk_type x (register_chunk_type x reg) = true ∧
    chunkTypeBody x (register_chunk_type x reg) = Except.ok true := by
  have hmem : x ∈ register_chunk_type x reg := by simp [register_chunk_type]
  exact ⟨is_valid_chunk_type_of_mem _ _ hmem,
    by rw [chunkTypeBody, if_pos hmem]⟩
